import Mathlib

/-!
Verification of the KPI-derivation and insight-generation core of an
AdTech reporting pipeline.

The embedding models a pandas DataFrame as an ordered list of named
columns of cells; numeric values are rationals.  The functions
`clean_data`, `calculate_kpis` and `get_summary_metrics` are translated
from src/process.py, and `generate_fallback_insights`,
`generate_insights_openai`, `generate_insights_gemini` from
src/insights.py.
-/

/-- A single table cell: a number, a piece of text, a parsed date, or a
missing value (NaN/NaT). -/
inductive Cell where
  | num (q : ℚ)
  | str (s : String)
  | date (s : String)
  | null
deriving Repr, DecidableEq

/-- A data frame: an ordered list of named columns.  Duplicate column
labels can arise (pandas permits them after a rename collision), so the
representation is a plain association list. -/
structure DF where
  cols : List (String × List Cell)
deriving Repr, DecidableEq

/-- Look up a column by exact name; first match wins. -/
def getCol? (df : DF) (n : String) : Option (List Cell) :=
  go df.cols
where
  go : List (String × List Cell) → Option (List Cell)
    | [] => none
    | (m, v) :: rest => if m = n then some v else go rest

/-- Column-presence test, modelling `col in df.columns`. -/
def hasCol (df : DF) (n : String) : Bool :=
  (getCol? df n).isSome

/-- Column lookup with an empty default (used only under a presence
guard, where the default is unreachable). -/
def getColD (df : DF) (n : String) : List Cell :=
  (getCol? df n).getD []

/-- Assignment `df[n] = v`: replace the first column named `n`, or
append a new column when none exists. -/
def setColList : List (String × List Cell) → String → List Cell → List (String × List Cell)
  | [], n, v => [(n, v)]
  | (m, w) :: rest, n, v =>
    if m = n then (n, v) :: rest else (m, w) :: setColList rest n v

/-- Assignment on a data frame (see `setColList`). -/
def setCol (df : DF) (n : String) (v : List Cell) : DF :=
  ⟨setColList df.cols n v⟩

/-- The ordered list of column labels. -/
def colNames (df : DF) : List String :=
  df.cols.map Prod.fst

/-- Whether the character list `needle` occurs at the head of `hay`. -/
def leadsWith : List Char → List Char → Bool
  | [], _ => true
  | _ :: _, [] => false
  | a :: as, b :: bs => a == b && leadsWith as bs

/-- Whether `needle` occurs contiguously anywhere in `hay`. -/
def hasRun (needle : List Char) : List Char → Bool
  | [] => needle.isEmpty
  | c :: t => leadsWith needle (c :: t) || hasRun needle t

/-- Substring test, modelling Python's `sub in hay`. -/
def strHasSub (hay sub : String) : Bool :=
  hasRun sub.data hay.data

/-- Case folding, modelling Python's `str.lower()` on the ASCII labels
involved here. -/
def lowerStr (s : String) : String :=
  ⟨s.data.map Char.toLower⟩

/-- Canonical renaming of a single column label, from the keyword
mapping of calculate_kpis (src/process.py lines 66-80).  The source
builds a dict of matched labels and renames with it; a label with no
match keeps its name, which the final else-branch reproduces. -/
def renameOne (c : String) : String :=
  let l := lowerStr c
  if strHasSub l "impression" then "impressions"
  else if strHasSub l "click" && !strHasSub l "ctr" then "clicks"
  else if strHasSub l "spend" || strHasSub l "cost" then "spend"
  else if strHasSub l "conversion" then "conversions"
  else if strHasSub l "revenue" || strHasSub l "sales" then "revenue"
  else c

/-- The rename step `df_kpi.rename(columns=col_mapping)` of
calculate_kpis (src/process.py line 81): every column label is mapped
through `renameOne`; values are untouched.  pandas relabels columns
independently, so two labels may collide into one name. -/
def kpiRename (df : DF) : DF :=
  ⟨df.cols.map (fun p => (renameOne p.1, p.2))⟩

/-- Whether a cell is a number strictly greater than zero, modelling
the vectorized comparison `series > 0` on cleaned numeric data. -/
def cellPos : Cell → Bool
  | .num q => decide (0 < q)
  | _ => false

/-- Cell-wise division; non-numeric operands give a missing value. -/
def cellDiv : Cell → Cell → Cell
  | .num a, .num b => .num (a / b)
  | _, _ => .null

/-- Cell-wise scaling by a constant. -/
def cellScale (k : ℚ) : Cell → Cell
  | .num a => .num (a * k)
  | _ => .null

/-- The vectorized expression `np.where(den > 0, num / den * k, 0)`
shared by the five KPI assignments of calculate_kpis (src/process.py
lines 85-122); `k` is the scale factor (100, 1, 1000, 100, 1). -/
def safeRatioCol (numC denC : List Cell) (k : ℚ) : List Cell :=
  List.zipWith (fun n d => if cellPos d then cellScale k (cellDiv n d) else Cell.num 0) numC denC

/-- One conditional KPI assignment of calculate_kpis: when columns
`num` and `den` are both present, assign column `t` to the guarded
ratio; otherwise leave the frame unchanged (src/process.py lines
85-122, each of the five if-blocks instantiates this shape). -/
def kpiStep (num den t : String) (k : ℚ) (d : DF) : DF :=
  if hasCol d num && hasCol d den then
    setCol d t (safeRatioCol (getColD d num) (getColD d den) k)
  else d

/-- calculate_kpis (src/process.py lines 54-124): copy (pure identity
here; aliasing is covered by the heap model below), rename columns to
the canonical vocabulary, then the five conditional KPI assignments in
source order. -/
def calculate_kpis (df : DF) : DF :=
  let d := kpiRename df
  let d := kpiStep "clicks" "impressions" "CTR" 100 d
  let d := kpiStep "spend" "clicks" "CPC" 1 d
  let d := kpiStep "spend" "impressions" "CPM" 1000 d
  let d := kpiStep "conversions" "clicks" "Conversion_Rate" 100 d
  let d := kpiStep "revenue" "spend" "ROAS" 1 d
  d

/-- Numeric reading of a cell, as pandas aggregation sees it (non
numeric cells do not contribute to a numeric column's sum). -/
def cellVal : Cell → ℚ
  | .num q => q
  | _ => 0

/-- Column sum, modelling `df[col].sum()`. -/
def colSum (l : List Cell) : ℚ :=
  (l.map cellVal).sum

/-- Column mean, modelling `df[col].mean()` (sum over row count). -/
def colMean (l : List Cell) : ℚ :=
  colSum l / l.length

/-- A summary mapping: insertion-ordered key/value pairs, modelling the
Python dict built by get_summary_metrics. -/
abbrev Summary := List (String × ℚ)

/-- Dict lookup on a summary mapping; first match wins. -/
def sLookup : Summary → String → Option ℚ
  | [], _ => none
  | (k, v) :: rest, key => if k = key then some v else sLookup rest key

/-- Key-presence test, modelling `key in summary`. -/
def hasKey (s : Summary) (k : String) : Bool :=
  (sLookup s k).isSome

/-- Value access `summary[key]` (used only under presence guards in the
source; the default is unreachable there). -/
def getQ (s : Summary) (k : String) : ℚ :=
  (sLookup s k).getD 0

/-- The totals/averages loop body of get_summary_metrics for one base
metric (src/process.py lines 142-145): two entries when the column is
present, nothing otherwise. -/
def metricEntries (df : DF) (m : String) : Summary :=
  if hasCol df m then
    [("total_" ++ m, colSum (getColD df m)), ("avg_" ++ m, colMean (getColD df m))]
  else []

/-- The five base metrics iterated by get_summary_metrics. -/
def baseMetrics : List String :=
  ["impressions", "clicks", "spend", "conversions", "revenue"]

/-- The totals/averages section of get_summary_metrics: the loop over
the five base metrics, unrolled in source order. -/
def baseSummary (df : DF) : Summary :=
  metricEntries df "impressions" ++ metricEntries df "clicks" ++
    metricEntries df "spend" ++ metricEntries df "conversions" ++
    metricEntries df "revenue"

/-- get_summary_metrics (src/process.py lines 127-178).  The overall
blocks are translated exactly as written: each tests membership of the
bare metric name (for example `if 'impressions' in summary`) even
though the dict only ever holds `total_` and `avg_` keys. -/
def get_summary_metrics (df : DF) : Summary :=
  let summary := baseSummary df
  let summary :=
    if hasKey summary "impressions" && hasKey summary "clicks" then
      if 0 < getQ summary "total_impressions" then
        summary ++ [("overall_CTR", getQ summary "total_clicks" / getQ summary "total_impressions" * 100)]
      else summary ++ [("overall_CTR", 0)]
    else summary
  let summary :=
    if hasKey summary "spend" && hasKey summary "clicks" then
      if 0 < getQ summary "total_clicks" then
        summary ++ [("overall_CPC", getQ summary "total_spend" / getQ summary "total_clicks")]
      else summary ++ [("overall_CPC", 0)]
    else summary
  let summary :=
    if hasKey summary "spend" && hasKey summary "impressions" then
      if 0 < getQ summary "total_impressions" then
        summary ++ [("overall_CPM", getQ summary "total_spend" / getQ summary "total_impressions" * 1000)]
      else summary ++ [("overall_CPM", 0)]
    else summary
  let summary :=
    if hasKey summary "conversions" && hasKey summary "clicks" then
      if 0 < getQ summary "total_clicks" then
        summary ++ [("overall_Conversion_Rate", getQ summary "total_conversions" / getQ summary "total_clicks" * 100)]
      else summary ++ [("overall_Conversion_Rate", 0)]
    else summary
  let summary :=
    if hasKey summary "revenue" && hasKey summary "spend" then
      if 0 < getQ summary "total_spend" then
        summary ++ [("overall_ROAS", getQ summary "total_revenue" / getQ summary "total_spend")]
      else summary ++ [("overall_ROAS", 0)]
    else summary
  summary

/-- Round a rational to the nearest integer (halves up), used to model
Python's fixed-point formatting of a float. -/
def roundQ (q : ℚ) : ℤ :=
  Int.fdiv (2 * q.num + (q.den : ℤ)) (2 * (q.den : ℤ))

/-- Two-decimal rendering of a rational, modelling Python's `x:.2f`
format specifier (round to hundredths, print with two decimals). -/
def fmt2 (q : ℚ) : String :=
  let n : ℤ := roundQ (q * 100)
  let sign := if n < 0 then "-" else ""
  let m := n.natAbs
  let ip := m / 100
  let fp := m % 100
  sign ++ toString ip ++ "." ++ (if fp < 10 then "0" else "") ++ toString fp

/-- The insight mapping returned by the insight engine: four ordered
sequences of sentences (src/insights.py lines 144-149). -/
structure Insights where
  key_insights : List String
  trends : List String
  issues : List String
  recommendations : List String
deriving Repr, DecidableEq

/-- The overall_CTR rule of generate_fallback_insights
(src/insights.py lines 152-158). -/
def ctrRule (summary : Summary) (ins : Insights) : Insights :=
  match sLookup summary "overall_CTR" with
  | some ctr =>
    if ctr < 1 then
      { ins with
        issues := ins.issues ++ ["Low CTR of " ++ fmt2 ctr ++ "% indicates poor ad relevance or targeting"],
        recommendations := ins.recommendations ++ ["Improve ad copy and creative to increase engagement"] }
    else
      { ins with key_insights := ins.key_insights ++ ["CTR of " ++ fmt2 ctr ++ "% shows good engagement"] }
  | none => ins

/-- The overall_CPC rule of generate_fallback_insights
(src/insights.py lines 160-165). -/
def cpcRule (summary : Summary) (ins : Insights) : Insights :=
  match sLookup summary "overall_CPC" with
  | some cpc =>
    let ins := { ins with key_insights := ins.key_insights ++ ["Average CPC is $" ++ fmt2 cpc] }
    if 2 < cpc then
      { ins with
        issues := ins.issues ++ ["High CPC of $" ++ fmt2 cpc ++ " may impact profitability"],
        recommendations := ins.recommendations ++ ["Optimize bidding strategy to reduce cost per click"] }
    else ins
  | none => ins

/-- The overall_ROAS rule of generate_fallback_insights
(src/insights.py lines 167-173). -/
def roasRule (summary : Summary) (ins : Insights) : Insights :=
  match sLookup summary "overall_ROAS" with
  | some roas =>
    if roas < 2 then
      { ins with
        issues := ins.issues ++ ["ROAS of " ++ fmt2 roas ++ " is below target threshold"],
        recommendations := ins.recommendations ++
          ["Focus on high-converting audiences and reduce spend on underperforming segments"] }
    else
      { ins with key_insights := ins.key_insights ++ ["Strong ROAS of " ++ fmt2 roas ++ " indicates profitable campaigns"] }
  | none => ins

/-- The overall_Conversion_Rate rule of generate_fallback_insights
(src/insights.py lines 175-181). -/
def cvrRule (summary : Summary) (ins : Insights) : Insights :=
  match sLookup summary "overall_Conversion_Rate" with
  | some cvr =>
    if cvr < 2 then
      { ins with
        issues := ins.issues ++ ["Conversion rate of " ++ fmt2 cvr ++ "% needs improvement"],
        recommendations := ins.recommendations ++ ["Optimize landing pages and checkout flow"] }
    else
      { ins with key_insights := ins.key_insights ++ ["Conversion rate of " ++ fmt2 cvr ++ "% is performing well"] }
  | none => ins

/-- The metric-specific section of generate_fallback_insights: the four
threshold rules applied in source order to the initially empty mapping
(src/insights.py lines 144-181). -/
def fbRules (summary : Summary) : Insights :=
  cvrRule summary (roasRule summary (cpcRule summary (ctrRule summary ⟨[], [], [], []⟩)))

/-- The four fixed generic recommendations (src/insights.py lines
184-189). -/
def genericRecs : List String :=
  ["Monitor performance daily and adjust bids based on ROI",
   "A/B test different ad creatives and messaging",
   "Analyze top-performing segments and allocate more budget there",
   "Set up automated rules for pause underperforming campaigns"]

/-- generate_fallback_insights (src/insights.py lines 134-201): the
metric rules, then the generic recommendations, the truncation to five
recommendations, and the two non-empty-sequence fallbacks. -/
def generate_fallback_insights (summary : Summary) : Insights :=
  let ins := fbRules summary
  let ins := { ins with recommendations := (ins.recommendations ++ genericRecs).take 5 }
  let ins :=
    if ins.key_insights.isEmpty then
      { ins with key_insights := ins.key_insights ++ ["Data analysis completed successfully"] }
    else ins
  let ins :=
    if ins.trends.isEmpty then
      { ins with trends := ins.trends ++ ["More data points needed for trend analysis"] }
    else ins
  ins

/-- generate_insights_openai (src/insights.py lines 9-66).  The
try-block up to the chat-completion response is an external effect,
modelled as a call that either returns the response content or fails;
`json.loads` of the content is likewise external, modelled by
`parseJson`.  Any failure lands in the except-branch, which returns
generate_fallback_insights. -/
def generate_insights_openai
    (call : Summary → String → Except String String)
    (parseJson : String → Except String Insights)
    (summary : Summary) (dfSample : String) : Insights :=
  match call summary dfSample with
  | .error _ => generate_fallback_insights summary
  | .ok content =>
    match parseJson content with
    | .ok r => r
    | .error _ => generate_fallback_insights summary

/-- The code-fence stripping of generate_insights_gemini
(src/insights.py lines 117-126). -/
def stripFences (text : String) : String :=
  let t := text.trim
  let t := if t.startsWith "```json" then t.drop 7 else t
  let t := if t.startsWith "```" then t.drop 3 else t
  let t := if t.endsWith "```" then t.dropRight 3 else t
  t.trim

/-- generate_insights_gemini (src/insights.py lines 69-131): as for the
OpenAI variant, with the fence stripping applied to the response text
before the external JSON parse.  Any failure returns
generate_fallback_insights. -/
def generate_insights_gemini
    (call : Summary → String → Except String String)
    (parseJson : String → Except String Insights)
    (summary : Summary) (dfSample : String) : Insights :=
  match call summary dfSample with
  | .error _ => generate_fallback_insights summary
  | .ok text =>
    match parseJson (stripFences text) with
    | .ok r => r
    | .error _ => generate_fallback_insights summary

/-- The date-column test of clean_data (src/process.py lines 22-24):
the label is a known date alias or contains "date" case-insensitively. -/
def dateColPred (c : String) : Bool :=
  ["date", "Date", "DATE", "day", "Day"].contains c || strHasSub (lowerStr c) "date"

/-- Cell-level model of the external `pd.to_datetime(col,
errors='coerce')`: text and numbers become parsed dates, the empty
string and missing values become the null-date marker. -/
def toDatetimeCell : Cell → Cell
  | .str s => if s = "" then .null else .date s
  | .num q => .date (toString q)
  | .date s => .date s
  | .null => .null

/-- The date-conversion loop of clean_data (src/process.py lines
22-28), as a pure transform of the working frame. -/
def dateStep (df : DF) : DF :=
  ⟨df.cols.map (fun p => if dateColPred p.1 then (p.1, p.2.map toDatetimeCell) else p)⟩

/-- The numeric-candidate keywords of clean_data (src/process.py lines
31-32). -/
def numKeywords : List String :=
  ["impressions", "clicks", "spend", "conversions", "revenue",
   "cost", "sales", "cpc", "cpm", "ctr"]

/-- Whether a label matches any numeric-candidate keyword
(src/process.py line 35). -/
def numColPred (c : String) : Bool :=
  numKeywords.any (fun k => strHasSub (lowerStr c) k)

/-- Model of the pandas object-dtype test: a column is object-typed
when it holds textual cells. -/
def isObjectCol (l : List Cell) : Bool :=
  l.any (fun c => match c with | .str _ => true | _ => false)

/-- Strip `$`, `,` and `%` from a string (src/process.py lines 38-40;
`str.replace` removes every occurrence). -/
def stripChars (s : String) : String :=
  ⟨s.data.filter (fun ch => !(ch = '$' || ch = ',' || ch = '%'))⟩

/-- Decimal-digit reading for the numeric parser; none on an empty or
non-digit list. -/
def readNat? (l : List Char) : Option ℕ :=
  if l.isEmpty then none
  else l.foldl
    (fun acc c =>
      match acc with
      | some a => if c.isDigit then some (a * 10 + (c.toNat - 48)) else none
      | none => none)
    (some 0)

/-- Unsigned decimal parsing (integer part, optional fraction). -/
def parseUQ? (l : List Char) : Option ℚ :=
  let ip := l.takeWhile (fun c => c ≠ '.')
  let rest := l.dropWhile (fun c => c ≠ '.')
  match rest with
  | [] => (readNat? ip).map (fun n => (n : ℚ))
  | _ :: fp =>
    if fp.contains '.' then none
    else
      match readNat? ip, readNat? fp with
      | some a, some b => some ((a : ℚ) + (b : ℚ) / (10 : ℚ) ^ fp.length)
      | _, _ => none

/-- Signed decimal parsing, modelling the external
`pd.to_numeric(errors='coerce')` on simple decimal literals. -/
def parseQ? : List Char → Option ℚ
  | '-' :: rest => (parseUQ? rest).map (fun q => -q)
  | l => parseUQ? l

/-- Cell-level model of `astype(str)` followed by the `$`/`,`/`%`
stripping and `pd.to_numeric(errors='coerce')` (src/process.py lines
38-41): text is cleaned and parsed (unparseable text becomes missing),
numbers survive the round-trip, dates and missing values coerce to
missing. -/
def cleanNumCell : Cell → Cell
  | .str s =>
    match parseQ? (stripChars s).data with
    | some q => .num q
    | none => .null
  | .num q => .num q
  | .date _ => .null
  | .null => .null

/-- The numeric-cleaning loop of clean_data (src/process.py lines
34-41): textual columns matching a numeric keyword are stripped and
coerced. -/
def numStep (df : DF) : DF :=
  ⟨df.cols.map (fun p =>
    if numColPred p.1 && isObjectCol p.2 then (p.1, p.2.map cleanNumCell) else p)⟩

/-- Model of the pandas numeric-dtype test used by
`select_dtypes(include=[np.number])`: every cell is a number or a
missing value. -/
def isNumericCol (l : List Cell) : Bool :=
  l.all (fun c => match c with | .num _ => true | .null => true | _ => false)

/-- The numeric fillna(0) of clean_data (src/process.py lines 44-45). -/
def fillNumStep (df : DF) : DF :=
  ⟨df.cols.map (fun p =>
    if isNumericCol p.2 then
      (p.1, p.2.map (fun c => match c with | .null => .num 0 | c => c))
    else p)⟩

/-- The textual fillna of clean_data (src/process.py lines 48-49). -/
def fillTextStep (df : DF) : DF :=
  ⟨df.cols.map (fun p =>
    if isObjectCol p.2 then
      (p.1, p.2.map (fun c => match c with | .null => .str "" | c => c))
    else p)⟩

/-- clean_data (src/process.py lines 9-51) as a pure value transform:
date conversion, numeric cleaning, then the two fillna passes.  The
copy in line 19 is the identity on values; aliasing is covered by the
heap model below. -/
def clean_data (df : DF) : DF :=
  fillTextStep (fillNumStep (numStep (dateStep df)))

/-- A heap of data-frame objects: Python references are indices into
this list.  Used to state that the pipeline functions mutate only the
copies they allocate, never their argument. -/
abbrev Heap := List DF

/-- Dereference a heap slot (the empty frame stands for an invalid
reference and is never reached under the stated bounds). -/
def hget (h : Heap) (r : ℕ) : DF :=
  h.getD r ⟨[]⟩

/-- In-place update of a heap slot, modelling mutation of the object a
reference points to. -/
def hset (h : Heap) (r : ℕ) (d : DF) : Heap :=
  h.set r d

/-- clean_data as a heap program (src/process.py lines 9-51): the
argument is dereferenced, `df.copy()` allocates a fresh object, and
every in-place column assignment of the body targets that fresh
object. Each loop is folded into one write of its net effect. -/
def clean_data_prog (h : Heap) (r : ℕ) : Heap × ℕ :=
  let df := hget h r
  let h1 := h ++ [df]
  let rc := h.length
  let h2 := hset h1 rc (dateStep (hget h1 rc))
  let h3 := hset h2 rc (numStep (hget h2 rc))
  let h4 := hset h3 rc (fillNumStep (hget h3 rc))
  let h5 := hset h4 rc (fillTextStep (hget h4 rc))
  (h5, rc)

/-- calculate_kpis as a heap program (src/process.py lines 54-124):
`df.copy()` allocates a fresh object, `rename` returns another fresh
object rebound to the local name, and the five KPI assignments mutate
that object in place. -/
def calculate_kpis_prog (h : Heap) (r : ℕ) : Heap × ℕ :=
  let df := hget h r
  let h1 := h ++ [df]
  let rc := h.length
  let h2 := h1 ++ [kpiRename (hget h1 rc)]
  let rc2 := h1.length
  let h3 := hset h2 rc2 (kpiStep "clicks" "impressions" "CTR" 100 (hget h2 rc2))
  let h4 := hset h3 rc2 (kpiStep "spend" "clicks" "CPC" 1 (hget h3 rc2))
  let h5 := hset h4 rc2 (kpiStep "spend" "impressions" "CPM" 1000 (hget h4 rc2))
  let h6 := hset h5 rc2 (kpiStep "conversions" "clicks" "Conversion_Rate" 100 (hget h5 rc2))
  let h7 := hset h6 rc2 (kpiStep "revenue" "spend" "ROAS" 1 (hget h6 rc2))
  (h7, rc2)

/-- The overall_ summary keys whose formulas (src/process.py lines
148-176) read a given base metric's total: used to state which overall
keys depend on a metric. -/
def overallDeps : String → List String
  | "impressions" => ["overall_CTR", "overall_CPM"]
  | "clicks" => ["overall_CTR", "overall_CPC", "overall_Conversion_Rate"]
  | "spend" => ["overall_CPC", "overall_CPM", "overall_ROAS"]
  | "conversions" => ["overall_Conversion_Rate"]
  | "revenue" => ["overall_ROAS"]
  | _ => []

/-! Basic lemmas about the data-frame operations. -/

lemma getCol?_go_eq (n : String) :
    ∀ cols : List (String × List Cell), getCol?.go n cols =
      match cols with
      | [] => none
      | (m, v) :: rest => if m = n then some v else getCol?.go n rest := by
  intro cols
  cases cols with
  | nil => rfl
  | cons p rest => rfl

lemma getCol?_setCol_self (df : DF) (n : String) (v : List Cell) :
    getCol? (setCol df n v) n = some v := by
  show getCol?.go n (setColList df.cols n v) = some v
  induction df.cols with
  | nil => simp [setColList, getCol?.go]
  | cons p rest ih =>
    obtain ⟨m, w⟩ := p
    by_cases hm : m = n
    · simp [setColList, hm, getCol?.go]
    · simp [setColList, hm, getCol?.go, ih]

lemma getCol?_setCol_ne (df : DF) (n x : String) (v : List Cell) (hx : x ≠ n) :
    getCol? (setCol df n v) x = getCol? df x := by
  show getCol?.go x (setColList df.cols n v) = getCol?.go x df.cols
  induction df.cols with
  | nil => simp [setColList, getCol?.go, Ne.symm hx]
  | cons p rest ih =>
    obtain ⟨m, w⟩ := p
    by_cases hm : m = n
    · subst hm
      simp [setColList, getCol?.go, Ne.symm hx]
    · simp [setColList, hm, getCol?.go, ih]

lemma setColList_self (n : String) (v : List Cell) :
    ∀ cols : List (String × List Cell),
      getCol?.go n cols = some v → setColList cols n v = cols := by
  intro cols
  induction cols with
  | nil => intro hv; simp [getCol?.go] at hv
  | cons p rest ih =>
    obtain ⟨m, w⟩ := p
    intro hv
    by_cases hm : m = n
    · subst hm
      simp [getCol?.go] at hv
      simp [setColList, hv]
    · simp [getCol?.go, hm] at hv
      simp [setColList, hm, ih hv]

lemma setCol_getCol_self (df : DF) (n : String) (v : List Cell)
    (hv : getCol? df n = some v) : setCol df n v = df := by
  obtain ⟨cols⟩ := df
  show DF.mk (setColList cols n v) = DF.mk cols
  rw [setColList_self n v cols hv]

lemma hasCol_setCol (df : DF) (n x : String) (v : List Cell) :
    hasCol (setCol df n v) x = (hasCol df x || x == n) := by
  by_cases hx : x = n
  · subst hx
    simp [hasCol, getCol?_setCol_self]
  · simp [hasCol, getCol?_setCol_ne df n x v hx, hx]

lemma mem_colNames_iff_hasCol (df : DF) (x : String) :
    x ∈ colNames df ↔ hasCol df x = true := by
  obtain ⟨cols⟩ := df
  show x ∈ cols.map Prod.fst ↔ (getCol?.go x cols).isSome = true
  induction cols with
  | nil => simp [getCol?.go]
  | cons p rest ih =>
    obtain ⟨m, w⟩ := p
    by_cases hm : m = x
    · subst hm
      simp [getCol?.go]
    · simp [getCol?.go, hm, Ne.symm hm, ih]

lemma hasCol_kpiStep_ne (num den t : String) (k : ℚ) (d : DF) (x : String)
    (hx : x ≠ t) : hasCol (kpiStep num den t k d) x = hasCol d x := by
  unfold kpiStep
  split
  · simp [hasCol_setCol, hx]
  · rfl

lemma getCol?_kpiStep_ne (num den t : String) (k : ℚ) (d : DF) (x : String)
    (hx : x ≠ t) : getCol? (kpiStep num den t k d) x = getCol? d x := by
  unfold kpiStep
  split
  · exact getCol?_setCol_ne _ _ _ _ hx
  · rfl

lemma mem_colNames_kpiStep (num den t : String) (k : ℚ) (d : DF) (x : String) :
    x ∈ colNames (kpiStep num den t k d) → x ∈ colNames d ∨ x = t := by
  intro hx
  by_cases hxt : x = t
  · exact Or.inr hxt
  · left
    rw [mem_colNames_iff_hasCol] at hx ⊢
    rwa [hasCol_kpiStep_ne _ _ _ _ _ _ hxt] at hx

lemma sLookup_append (a b : Summary) (k : String) :
    sLookup (a ++ b) k =
      match sLookup a k with
      | some v => some v
      | none => sLookup b k := by
  induction a with
  | nil => simp [sLookup]
  | cons p rest ih =>
    obtain ⟨m, v⟩ := p
    by_cases hm : m = k
    · simp [sLookup, hm]
    · simp [sLookup, hm, ih]

lemma sLookup_append_none (a b : Summary) (k : String) (ha : sLookup a k = none) :
    sLookup (a ++ b) k = sLookup b k := by
  rw [sLookup_append, ha]

lemma sLookup_append_some (a b : Summary) (k : String) (v : ℚ)
    (ha : sLookup a k = some v) : sLookup (a ++ b) k = some v := by
  rw [sLookup_append, ha]

/-! Lemmas about the canonical renaming. -/

lemma renameOne_self_or_canon (s : String) :
    renameOne s = s ∨ renameOne s ∈ baseMetrics := by
  by_cases h1 : strHasSub (lowerStr s) "impression" = true
  · right
    simp [renameOne, h1, baseMetrics]
  · by_cases h2 : (strHasSub (lowerStr s) "click" && !strHasSub (lowerStr s) "ctr") = true
    · right
      simp [renameOne, h1, h2, baseMetrics]
    · by_cases h3 : (strHasSub (lowerStr s) "spend" || strHasSub (lowerStr s) "cost") = true
      · right
        simp [renameOne, h1, h2, h3, baseMetrics]
      · by_cases h4 : strHasSub (lowerStr s) "conversion" = true
        · right
          simp [renameOne, h1, h2, h3, h4, baseMetrics]
        · by_cases h5 : (strHasSub (lowerStr s) "revenue" || strHasSub (lowerStr s) "sales") = true
          · right
            simp [renameOne, h1, h2, h3, h4, h5, baseMetrics]
          · left
            simp [renameOne, h1, h2, h3, h4, h5]

lemma renameOne_canon_fixed : ∀ m ∈ baseMetrics, renameOne m = m := by decide

lemma renameOne_renameOne (s : String) : renameOne (renameOne s) = renameOne s := by
  rcases renameOne_self_or_canon s with h | h
  · rw [h, h]
  · exact renameOne_canon_fixed _ h

lemma colNames_kpiRename (df : DF) :
    colNames (kpiRename df) = (colNames df).map renameOne := by
  simp [kpiRename, colNames, List.map_map]

lemma mem_colNames_kpiRename (df : DF) (x : String) (hx : x ∉ baseMetrics) :
    x ∈ colNames (kpiRename df) ↔ x ∈ colNames df ∧ renameOne x = x := by
  rw [colNames_kpiRename]
  constructor
  · intro hmem
    obtain ⟨n, hn, he⟩ := List.mem_map.mp hmem
    rcases renameOne_self_or_canon n with h | h
    · have hnx : n = x := h.symm.trans he
      subst hnx
      exact ⟨hn, h⟩
    · rw [he] at h
      exact absurd h hx
  · intro ⟨hn, hfix⟩
    exact List.mem_map.mpr ⟨x, hn, hfix⟩

lemma kpiRename_eq_self (df : DF) (h : ∀ n ∈ colNames df, renameOne n = n) :
    kpiRename df = df := by
  obtain ⟨cols⟩ := df
  show DF.mk (cols.map fun p => (renameOne p.1, p.2)) = DF.mk cols
  congr 1
  induction cols with
  | nil => rfl
  | cons p rest ih =>
    obtain ⟨m, v⟩ := p
    have hm : renameOne m = m := h m (by simp [colNames])
    have hrest : ∀ n ∈ colNames ⟨rest⟩, renameOne n = n := by
      intro n hn
      exact h n (by simp [colNames] at hn ⊢; exact Or.inr hn)
    simp [hm, ih hrest]

/-! Lemmas about the summary aggregator. -/

lemma sLookup_metricEntries_ne (df : DF) (m k : String)
    (h1 : k ≠ "total_" ++ m) (h2 : k ≠ "avg_" ++ m) :
    sLookup (metricEntries df m) k = none := by
  unfold metricEntries
  split
  · simp [sLookup, Ne.symm h1, Ne.symm h2]
  · rfl

lemma bare_absent (df : DF) (k : String) (hk : k ∈ baseMetrics) :
    hasKey (baseSummary df) k = false := by
  fin_cases hk <;>
    simp [hasKey, baseSummary] <;>
    rw [sLookup_append_none _ _ _ (sLookup_metricEntries_ne df _ _ (by decide) (by decide)),
      sLookup_append_none _ _ _ (sLookup_metricEntries_ne df _ _ (by decide) (by decide)),
      sLookup_append_none _ _ _ (sLookup_metricEntries_ne df _ _ (by decide) (by decide)),
      sLookup_append_none _ _ _ (sLookup_metricEntries_ne df _ _ (by decide) (by decide)),
      sLookup_metricEntries_ne df _ _ (by decide) (by decide)]

/-- The overall-KPI section of get_summary_metrics never fires: its
membership tests use the bare metric names, which are never keys of the
summary dict. -/
lemma summary_eq_base (df : DF) : get_summary_metrics df = baseSummary df := by
  have h1 := bare_absent df "impressions" (by decide)
  have h2 := bare_absent df "clicks" (by decide)
  have h3 := bare_absent df "spend" (by decide)
  have h4 := bare_absent df "conversions" (by decide)
  have h5 := bare_absent df "revenue" (by decide)
  simp [get_summary_metrics, h1, h2, h3, h4, h5]

lemma str_data_append (a b : String) : (a ++ b).data = a.data ++ b.data := rfl

lemma avg_ne_total (m m' : String) : ("avg_" ++ m) ≠ ("total_" ++ m') := by
  intro h
  have hd := congrArg String.data h
  rw [str_data_append, str_data_append,
    show "avg_".data = ['a', 'v', 'g', '_'] from rfl,
    show "total_".data = ['t', 'o', 't', 'a', 'l', '_'] from rfl] at hd
  simp only [List.cons_append] at hd
  injection hd with h1 _
  exact absurd h1 (by decide)

lemma total_ne_avg (m m' : String) : ("total_" ++ m) ≠ ("avg_" ++ m') :=
  fun h => avg_ne_total m' m h.symm

lemma total_inj (m m' : String) (h : ("total_" ++ m) = ("total_" ++ m')) : m = m' := by
  have hd := congrArg String.data h
  rw [str_data_append, str_data_append] at hd
  obtain ⟨d⟩ := m
  obtain ⟨d'⟩ := m'
  exact congrArg String.mk (List.append_cancel_left hd)

lemma avg_inj (m m' : String) (h : ("avg_" ++ m) = ("avg_" ++ m')) : m = m' := by
  have hd := congrArg String.data h
  rw [str_data_append, str_data_append] at hd
  obtain ⟨d⟩ := m
  obtain ⟨d'⟩ := m'
  exact congrArg String.mk (List.append_cancel_left hd)

lemma sLookup_metricEntries_total (df : DF) (m : String) :
    sLookup (metricEntries df m) ("total_" ++ m) =
      if hasCol df m then some (colSum (getColD df m)) else none := by
  unfold metricEntries
  split <;> simp [sLookup]

lemma sLookup_metricEntries_avg (df : DF) (m : String) :
    sLookup (metricEntries df m) ("avg_" ++ m) =
      if hasCol df m then some (colMean (getColD df m)) else none := by
  unfold metricEntries
  split <;> simp [sLookup, total_ne_avg m m]

lemma flat_none (df : DF) (k : String) :
    ∀ L : List String, (∀ m' ∈ L, k ≠ "total_" ++ m' ∧ k ≠ "avg_" ++ m') →
      sLookup ((L.map (metricEntries df)).flatten) k = none := by
  intro L
  induction L with
  | nil => intro _; rfl
  | cons a t ih =>
    intro h
    obtain ⟨h1, h2⟩ := h a (by simp)
    simp only [List.map_cons, List.flatten_cons]
    rw [sLookup_append_none _ _ _ (sLookup_metricEntries_ne df a k h1 h2)]
    exact ih (fun m' hm' => h m' (by simp [hm']))

lemma flat_total (df : DF) (m : String) :
    ∀ L : List String, m ∈ L → L.Nodup →
      sLookup ((L.map (metricEntries df)).flatten) ("total_" ++ m) =
        if hasCol df m then some (colSum (getColD df m)) else none := by
  intro L
  induction L with
  | nil => intro hm; simp at hm
  | cons a t ih =>
    intro hm hnd
    simp only [List.map_cons, List.flatten_cons]
    rcases List.mem_cons.mp hm with hma | hmt
    · subst hma
      by_cases hcol : hasCol df m = true
      · rw [sLookup_append_some _ _ _ _ (by rw [sLookup_metricEntries_total, if_pos hcol]),
          if_pos hcol]
      · have hnone : sLookup (metricEntries df m) ("total_" ++ m) = none := by
          rw [sLookup_metricEntries_total, if_neg hcol]
        rw [sLookup_append_none _ _ _ hnone,
          flat_none df _ t
            (fun m' hm' => ⟨fun he => (List.nodup_cons.mp hnd).1 (total_inj m m' he ▸ hm'),
              total_ne_avg m m'⟩),
          if_neg hcol]
    · have hne : m ≠ a := fun he => (List.nodup_cons.mp hnd).1 (he ▸ hmt)
      rw [sLookup_append_none _ _ _
        (sLookup_metricEntries_ne df a _ (fun he => hne (total_inj m a he)) (total_ne_avg m a))]
      exact ih hmt (List.nodup_cons.mp hnd).2

lemma flat_avg (df : DF) (m : String) :
    ∀ L : List String, m ∈ L → L.Nodup →
      sLookup ((L.map (metricEntries df)).flatten) ("avg_" ++ m) =
        if hasCol df m then some (colMean (getColD df m)) else none := by
  intro L
  induction L with
  | nil => intro hm; simp at hm
  | cons a t ih =>
    intro hm hnd
    simp only [List.map_cons, List.flatten_cons]
    rcases List.mem_cons.mp hm with hma | hmt
    · subst hma
      by_cases hcol : hasCol df m = true
      · rw [sLookup_append_some _ _ _ _ (by rw [sLookup_metricEntries_avg, if_pos hcol]),
          if_pos hcol]
      · have hnone : sLookup (metricEntries df m) ("avg_" ++ m) = none := by
          rw [sLookup_metricEntries_avg, if_neg hcol]
        rw [sLookup_append_none _ _ _ hnone,
          flat_none df _ t
            (fun m' hm' => ⟨avg_ne_total m m',
              fun he => (List.nodup_cons.mp hnd).1 (avg_inj m m' he ▸ hm')⟩),
          if_neg hcol]
    · have hne : m ≠ a := fun he => (List.nodup_cons.mp hnd).1 (he ▸ hmt)
      rw [sLookup_append_none _ _ _
        (sLookup_metricEntries_ne df a _ (avg_ne_total m a) (fun he => hne (avg_inj m a he)))]
      exact ih hmt (List.nodup_cons.mp hnd).2

lemma safeRatioCol_get (k : ℚ) :
    ∀ (a b : List Cell) (i : ℕ) (x y : Cell), a[i]? = some x → b[i]? = some y →
      (safeRatioCol a b k)[i]? =
        some (if cellPos y then cellScale k (cellDiv x y) else Cell.num 0) := by
  intro a
  induction a with
  | nil => intro b i x y hx; simp at hx
  | cons c t ih =>
    intro b i x y hx hy
    cases b with
    | nil => simp at hy
    | cons d u =>
      cases i with
      | zero =>
        simp at hx hy
        subst hx
        subst hy
        simp [safeRatioCol]
      | succ j =>
        simp at hx hy
        simpa [safeRatioCol] using ih u j x y hx hy

lemma hasCol_of_getD_get (df : DF) (n : String) (i : ℕ) (c : Cell)
    (h : (getColD df n)[i]? = some c) : hasCol df n = true := by
  cases hc : getCol? df n with
  | none => rw [getColD, hc] at h; simp at h
  | some v => simp [hasCol, hc]

lemma getColD_kpiStep_ne (num den t : String) (k : ℚ) (d : DF) (x : String)
    (hx : x ≠ t) : getColD (kpiStep num den t k d) x = getColD d x := by
  unfold getColD
  rw [getCol?_kpiStep_ne _ _ _ _ _ _ hx]

lemma kpiStep_of_true (num den t : String) (k : ℚ) (d : DF)
    (h : (hasCol d num && hasCol d den) = true) :
    kpiStep num den t k d = setCol d t (safeRatioCol (getColD d num) (getColD d den) k) := by
  unfold kpiStep
  rw [if_pos h]

lemma kpiStep_of_false (num den t : String) (k : ℚ) (d : DF)
    (h : ¬((hasCol d num && hasCol d den) = true)) :
    kpiStep num den t k d = d := by
  unfold kpiStep
  rw [if_neg h]

lemma calc_CTR_col (df : DF) :
    getCol? (calculate_kpis df) "CTR" =
      if hasCol (kpiRename df) "clicks" && hasCol (kpiRename df) "impressions" then
        some (safeRatioCol (getColD (kpiRename df) "clicks")
          (getColD (kpiRename df) "impressions") 100)
      else getCol? (kpiRename df) "CTR" := by
  simp only [calculate_kpis]
  set r := kpiRename df with hr
  by_cases g : (hasCol r "clicks" && hasCol r "impressions") = true
  · rw [kpiStep_of_true _ _ _ _ _ g,
      getCol?_kpiStep_ne "revenue" "spend" "ROAS" 1 _ "CTR" (by decide),
      getCol?_kpiStep_ne "conversions" "clicks" "Conversion_Rate" 100 _ "CTR" (by decide),
      getCol?_kpiStep_ne "spend" "impressions" "CPM" 1000 _ "CTR" (by decide),
      getCol?_kpiStep_ne "spend" "clicks" "CPC" 1 _ "CTR" (by decide),
      getCol?_setCol_self, if_pos g]
  · rw [kpiStep_of_false _ _ _ _ _ g,
      getCol?_kpiStep_ne "revenue" "spend" "ROAS" 1 _ "CTR" (by decide),
      getCol?_kpiStep_ne "conversions" "clicks" "Conversion_Rate" 100 _ "CTR" (by decide),
      getCol?_kpiStep_ne "spend" "impressions" "CPM" 1000 _ "CTR" (by decide),
      getCol?_kpiStep_ne "spend" "clicks" "CPC" 1 _ "CTR" (by decide),
      if_neg g]

lemma calc_CPC_col (df : DF) :
    getCol? (calculate_kpis df) "CPC" =
      if hasCol (kpiRename df) "spend" && hasCol (kpiRename df) "clicks" then
        some (safeRatioCol (getColD (kpiRename df) "spend")
          (getColD (kpiRename df) "clicks") 1)
      else getCol? (kpiRename df) "CPC" := by
  simp only [calculate_kpis]
  set r := kpiRename df with hr
  have hs : hasCol (kpiStep "clicks" "impressions" "CTR" 100 r) "spend" = hasCol r "spend" :=
    hasCol_kpiStep_ne _ _ _ _ _ _ (by decide)
  have hc : hasCol (kpiStep "clicks" "impressions" "CTR" 100 r) "clicks" = hasCol r "clicks" :=
    hasCol_kpiStep_ne _ _ _ _ _ _ (by decide)
  by_cases g : (hasCol r "spend" && hasCol r "clicks") = true
  · rw [kpiStep_of_true "spend" "clicks" "CPC" 1 _ (by rw [hs, hc]; exact g),
      getCol?_kpiStep_ne "revenue" "spend" "ROAS" 1 _ "CPC" (by decide),
      getCol?_kpiStep_ne "conversions" "clicks" "Conversion_Rate" 100 _ "CPC" (by decide),
      getCol?_kpiStep_ne "spend" "impressions" "CPM" 1000 _ "CPC" (by decide),
      getCol?_setCol_self,
      getColD_kpiStep_ne "clicks" "impressions" "CTR" 100 _ "spend" (by decide),
      getColD_kpiStep_ne "clicks" "impressions" "CTR" 100 _ "clicks" (by decide),
      if_pos g]
  · rw [kpiStep_of_false "spend" "clicks" "CPC" 1 _ (by rw [hs, hc]; exact g),
      getCol?_kpiStep_ne "revenue" "spend" "ROAS" 1 _ "CPC" (by decide),
      getCol?_kpiStep_ne "conversions" "clicks" "Conversion_Rate" 100 _ "CPC" (by decide),
      getCol?_kpiStep_ne "spend" "impressions" "CPM" 1000 _ "CPC" (by decide),
      getCol?_kpiStep_ne "clicks" "impressions" "CTR" 100 _ "CPC" (by decide),
      if_neg g]

lemma calc_CPM_col (df : DF) :
    getCol? (calculate_kpis df) "CPM" =
      if hasCol (kpiRename df) "spend" && hasCol (kpiRename df) "impressions" then
        some (safeRatioCol (getColD (kpiRename df) "spend")
          (getColD (kpiRename df) "impressions") 1000)
      else getCol? (kpiRename df) "CPM" := by
  simp only [calculate_kpis]
  set r := kpiRename df with hr
  have hs : hasCol (kpiStep "spend" "clicks" "CPC" 1
      (kpiStep "clicks" "impressions" "CTR" 100 r)) "spend" = hasCol r "spend" := by
    rw [hasCol_kpiStep_ne _ _ _ _ _ _ (by decide), hasCol_kpiStep_ne _ _ _ _ _ _ (by decide)]
  have hi : hasCol (kpiStep "spend" "clicks" "CPC" 1
      (kpiStep "clicks" "impressions" "CTR" 100 r)) "impressions" = hasCol r "impressions" := by
    rw [hasCol_kpiStep_ne _ _ _ _ _ _ (by decide), hasCol_kpiStep_ne _ _ _ _ _ _ (by decide)]
  by_cases g : (hasCol r "spend" && hasCol r "impressions") = true
  · rw [kpiStep_of_true "spend" "impressions" "CPM" 1000 _ (by rw [hs, hi]; exact g),
      getCol?_kpiStep_ne "revenue" "spend" "ROAS" 1 _ "CPM" (by decide),
      getCol?_kpiStep_ne "conversions" "clicks" "Conversion_Rate" 100 _ "CPM" (by decide),
      getCol?_setCol_self,
      getColD_kpiStep_ne "spend" "clicks" "CPC" 1 _ "spend" (by decide),
      getColD_kpiStep_ne "clicks" "impressions" "CTR" 100 _ "spend" (by decide),
      getColD_kpiStep_ne "spend" "clicks" "CPC" 1 _ "impressions" (by decide),
      getColD_kpiStep_ne "clicks" "impressions" "CTR" 100 _ "impressions" (by decide),
      if_pos g]
  · rw [kpiStep_of_false "spend" "impressions" "CPM" 1000 _ (by rw [hs, hi]; exact g),
      getCol?_kpiStep_ne "revenue" "spend" "ROAS" 1 _ "CPM" (by decide),
      getCol?_kpiStep_ne "conversions" "clicks" "Conversion_Rate" 100 _ "CPM" (by decide),
      getCol?_kpiStep_ne "spend" "clicks" "CPC" 1 _ "CPM" (by decide),
      getCol?_kpiStep_ne "clicks" "impressions" "CTR" 100 _ "CPM" (by decide),
      if_neg g]

lemma calc_CR_col (df : DF) :
    getCol? (calculate_kpis df) "Conversion_Rate" =
      if hasCol (kpiRename df) "conversions" && hasCol (kpiRename df) "clicks" then
        some (safeRatioCol (getColD (kpiRename df) "conversions")
          (getColD (kpiRename df) "clicks") 100)
      else getCol? (kpiRename df) "Conversion_Rate" := by
  simp only [calculate_kpis]
  set r := kpiRename df with hr
  have hv : hasCol (kpiStep "spend" "impressions" "CPM" 1000 (kpiStep "spend" "clicks" "CPC" 1
      (kpiStep "clicks" "impressions" "CTR" 100 r))) "conversions" = hasCol r "conversions" := by
    rw [hasCol_kpiStep_ne _ _ _ _ _ _ (by decide), hasCol_kpiStep_ne _ _ _ _ _ _ (by decide),
      hasCol_kpiStep_ne _ _ _ _ _ _ (by decide)]
  have hc : hasCol (kpiStep "spend" "impressions" "CPM" 1000 (kpiStep "spend" "clicks" "CPC" 1
      (kpiStep "clicks" "impressions" "CTR" 100 r))) "clicks" = hasCol r "clicks" := by
    rw [hasCol_kpiStep_ne _ _ _ _ _ _ (by decide), hasCol_kpiStep_ne _ _ _ _ _ _ (by decide),
      hasCol_kpiStep_ne _ _ _ _ _ _ (by decide)]
  by_cases g : (hasCol r "conversions" && hasCol r "clicks") = true
  · rw [kpiStep_of_true "conversions" "clicks" "Conversion_Rate" 100 _ (by rw [hv, hc]; exact g),
      getCol?_kpiStep_ne "revenue" "spend" "ROAS" 1 _ "Conversion_Rate" (by decide),
      getCol?_setCol_self,
      getColD_kpiStep_ne "spend" "impressions" "CPM" 1000 _ "conversions" (by decide),
      getColD_kpiStep_ne "spend" "clicks" "CPC" 1 _ "conversions" (by decide),
      getColD_kpiStep_ne "clicks" "impressions" "CTR" 100 _ "conversions" (by decide),
      getColD_kpiStep_ne "spend" "impressions" "CPM" 1000 _ "clicks" (by decide),
      getColD_kpiStep_ne "spend" "clicks" "CPC" 1 _ "clicks" (by decide),
      getColD_kpiStep_ne "clicks" "impressions" "CTR" 100 _ "clicks" (by decide),
      if_pos g]
  · rw [kpiStep_of_false "conversions" "clicks" "Conversion_Rate" 100 _ (by rw [hv, hc]; exact g),
      getCol?_kpiStep_ne "revenue" "spend" "ROAS" 1 _ "Conversion_Rate" (by decide),
      getCol?_kpiStep_ne "spend" "impressions" "CPM" 1000 _ "Conversion_Rate" (by decide),
      getCol?_kpiStep_ne "spend" "clicks" "CPC" 1 _ "Conversion_Rate" (by decide),
      getCol?_kpiStep_ne "clicks" "impressions" "CTR" 100 _ "Conversion_Rate" (by decide),
      if_neg g]

lemma calc_ROAS_col (df : DF) :
    getCol? (calculate_kpis df) "ROAS" =
      if hasCol (kpiRename df) "revenue" && hasCol (kpiRename df) "spend" then
        some (safeRatioCol (getColD (kpiRename df) "revenue")
          (getColD (kpiRename df) "spend") 1)
      else getCol? (kpiRename df) "ROAS" := by
  simp only [calculate_kpis]
  set r := kpiRename df with hr
  have hv : hasCol (kpiStep "conversions" "clicks" "Conversion_Rate" 100
      (kpiStep "spend" "impressions" "CPM" 1000 (kpiStep "spend" "clicks" "CPC" 1
        (kpiStep "clicks" "impressions" "CTR" 100 r)))) "revenue" = hasCol r "revenue" := by
    rw [hasCol_kpiStep_ne _ _ _ _ _ _ (by decide), hasCol_kpiStep_ne _ _ _ _ _ _ (by decide),
      hasCol_kpiStep_ne _ _ _ _ _ _ (by decide), hasCol_kpiStep_ne _ _ _ _ _ _ (by decide)]
  have hs : hasCol (kpiStep "conversions" "clicks" "Conversion_Rate" 100
      (kpiStep "spend" "impressions" "CPM" 1000 (kpiStep "spend" "clicks" "CPC" 1
        (kpiStep "clicks" "impressions" "CTR" 100 r)))) "spend" = hasCol r "spend" := by
    rw [hasCol_kpiStep_ne _ _ _ _ _ _ (by decide), hasCol_kpiStep_ne _ _ _ _ _ _ (by decide),
      hasCol_kpiStep_ne _ _ _ _ _ _ (by decide), hasCol_kpiStep_ne _ _ _ _ _ _ (by decide)]
  by_cases g : (hasCol r "revenue" && hasCol r "spend") = true
  · rw [kpiStep_of_true "revenue" "spend" "ROAS" 1 _ (by rw [hv, hs]; exact g),
      getCol?_setCol_self,
      getColD_kpiStep_ne "conversions" "clicks" "Conversion_Rate" 100 _ "revenue" (by decide),
      getColD_kpiStep_ne "spend" "impressions" "CPM" 1000 _ "revenue" (by decide),
      getColD_kpiStep_ne "spend" "clicks" "CPC" 1 _ "revenue" (by decide),
      getColD_kpiStep_ne "clicks" "impressions" "CTR" 100 _ "revenue" (by decide),
      getColD_kpiStep_ne "conversions" "clicks" "Conversion_Rate" 100 _ "spend" (by decide),
      getColD_kpiStep_ne "spend" "impressions" "CPM" 1000 _ "spend" (by decide),
      getColD_kpiStep_ne "spend" "clicks" "CPC" 1 _ "spend" (by decide),
      getColD_kpiStep_ne "clicks" "impressions" "CTR" 100 _ "spend" (by decide),
      if_pos g]
  · rw [kpiStep_of_false "revenue" "spend" "ROAS" 1 _ (by rw [hv, hs]; exact g),
      getCol?_kpiStep_ne "conversions" "clicks" "Conversion_Rate" 100 _ "ROAS" (by decide),
      getCol?_kpiStep_ne "spend" "impressions" "CPM" 1000 _ "ROAS" (by decide),
      getCol?_kpiStep_ne "spend" "clicks" "CPC" 1 _ "ROAS" (by decide),
      getCol?_kpiStep_ne "clicks" "impressions" "CTR" 100 _ "ROAS" (by decide),
      if_neg g]

lemma calc_canon_stable (df : DF) (x : String)
    (h1 : x ≠ "CTR") (h2 : x ≠ "CPC") (h3 : x ≠ "CPM")
    (h4 : x ≠ "Conversion_Rate") (h5 : x ≠ "ROAS") :
    getCol? (calculate_kpis df) x = getCol? (kpiRename df) x := by
  simp only [calculate_kpis]
  rw [getCol?_kpiStep_ne "revenue" "spend" "ROAS" 1 _ x h5,
    getCol?_kpiStep_ne "conversions" "clicks" "Conversion_Rate" 100 _ x h4,
    getCol?_kpiStep_ne "spend" "impressions" "CPM" 1000 _ x h3,
    getCol?_kpiStep_ne "spend" "clicks" "CPC" 1 _ x h2,
    getCol?_kpiStep_ne "clicks" "impressions" "CTR" 100 _ x h1]

lemma hasCol_calc_stable (df : DF) (x : String)
    (h1 : x ≠ "CTR") (h2 : x ≠ "CPC") (h3 : x ≠ "CPM")
    (h4 : x ≠ "Conversion_Rate") (h5 : x ≠ "ROAS") :
    hasCol (calculate_kpis df) x = hasCol (kpiRename df) x := by
  rw [hasCol, calc_canon_stable df x h1 h2 h3 h4 h5]
  rfl

lemma getColD_calc_stable (df : DF) (x : String)
    (h1 : x ≠ "CTR") (h2 : x ≠ "CPC") (h3 : x ≠ "CPM")
    (h4 : x ≠ "Conversion_Rate") (h5 : x ≠ "ROAS") :
    getColD (calculate_kpis df) x = getColD (kpiRename df) x := by
  rw [getColD, calc_canon_stable df x h1 h2 h3 h4 h5]
  rfl

lemma kpiStep_second_id (df : DF) (n d t : String) (k : ℚ)
    (hcalc : getCol? (calculate_kpis df) t =
      if hasCol (kpiRename df) n && hasCol (kpiRename df) d then
        some (safeRatioCol (getColD (kpiRename df) n) (getColD (kpiRename df) d) k)
      else getCol? (kpiRename df) t)
    (hn : hasCol (calculate_kpis df) n = hasCol (kpiRename df) n)
    (hd : hasCol (calculate_kpis df) d = hasCol (kpiRename df) d)
    (hgn : getColD (calculate_kpis df) n = getColD (kpiRename df) n)
    (hgd : getColD (calculate_kpis df) d = getColD (kpiRename df) d) :
    kpiStep n d t k (calculate_kpis df) = calculate_kpis df := by
  by_cases g : (hasCol (kpiRename df) n && hasCol (kpiRename df) d) = true
  · rw [kpiStep_of_true _ _ _ _ _ (by rw [hn, hd]; exact g), hgn, hgd]
    exact setCol_getCol_self _ _ _ (by rw [hcalc, if_pos g])
  · exact kpiStep_of_false _ _ _ _ _ (by rw [hn, hd]; exact g)

lemma hasCol_rename_derived (df : DF) (t : String) (htm : t ∉ baseMetrics)
    (h : hasCol df t = false) : hasCol (kpiRename df) t = false := by
  cases hb : hasCol (kpiRename df) t with
  | false => rfl
  | true =>
    have hmem := (mem_colNames_kpiRename df t htm).mp ((mem_colNames_iff_hasCol _ _).mpr hb)
    exact absurd ((mem_colNames_iff_hasCol df t).mp hmem.1) (by simp [h])

lemma hasCol_calc_of (df : DF) (t n d : String) (v : List Cell)
    (hcalc : getCol? (calculate_kpis df) t =
      if hasCol (kpiRename df) n && hasCol (kpiRename df) d then some v
      else getCol? (kpiRename df) t)
    (hrt : hasCol (kpiRename df) t = false) :
    hasCol (calculate_kpis df) t =
      (hasCol (kpiRename df) n && hasCol (kpiRename df) d) := by
  by_cases g : (hasCol (kpiRename df) n && hasCol (kpiRename df) d) = true
  · rw [hasCol, hcalc, if_pos g, g]
    rfl
  · have gf : (hasCol (kpiRename df) n && hasCol (kpiRename df) d) = false := by
      revert g
      cases hasCol (kpiRename df) n && hasCol (kpiRename df) d <;> simp
    rw [hasCol, hcalc, if_neg g, gf]
    exact hrt

lemma ratio_cell (qn qd k : ℚ) :
    (if cellPos (Cell.num qd) then cellScale k (cellDiv (Cell.num qn) (Cell.num qd))
     else Cell.num 0) = Cell.num (if 0 < qd then qn / qd * k else 0) := by
  by_cases hq : (0 : ℚ) < qd <;> simp [cellPos, cellDiv, cellScale, hq]

lemma kpi_cell_spec (df : DF) (n d t : String) (k : ℚ) (i : ℕ) (qn qd : ℚ)
    (hcalc : getCol? (calculate_kpis df) t =
      if hasCol (kpiRename df) n && hasCol (kpiRename df) d then
        some (safeRatioCol (getColD (kpiRename df) n) (getColD (kpiRename df) d) k)
      else getCol? (kpiRename df) t)
    (hn : (getColD (kpiRename df) n)[i]? = some (Cell.num qn))
    (hd : (getColD (kpiRename df) d)[i]? = some (Cell.num qd)) :
    (getColD (calculate_kpis df) t)[i]? =
      some (Cell.num (if 0 < qd then qn / qd * k else 0)) := by
  have hhn := hasCol_of_getD_get _ _ _ _ hn
  have hhd := hasCol_of_getD_get _ _ _ _ hd
  rw [getColD, hcalc, if_pos (by rw [hhn, hhd]; rfl)]
  simp only [Option.getD_some]
  rw [safeRatioCol_get k _ _ i _ _ hn hd, ratio_cell]

lemma baseSummary_eq_flatten (df : DF) :
    baseSummary df = ((baseMetrics.map (metricEntries df)).flatten) := by
  simp [baseSummary, baseMetrics]

lemma base_total (df : DF) (m : String) (hm : m ∈ baseMetrics) :
    sLookup (baseSummary df) ("total_" ++ m) =
      if hasCol df m then some (colSum (getColD df m)) else none := by
  rw [baseSummary_eq_flatten]
  exact flat_total df m baseMetrics hm (by decide)

lemma base_avg (df : DF) (m : String) (hm : m ∈ baseMetrics) :
    sLookup (baseSummary df) ("avg_" ++ m) =
      if hasCol df m then some (colMean (getColD df m)) else none := by
  rw [baseSummary_eq_flatten]
  exact flat_avg df m baseMetrics hm (by decide)

lemma base_other_none (df : DF) (k : String)
    (hk : ∀ m' ∈ baseMetrics, k ≠ "total_" ++ m' ∧ k ≠ "avg_" ++ m') :
    sLookup (baseSummary df) k = none := by
  rw [baseSummary_eq_flatten]
  exact flat_none df k baseMetrics hk

/-! Lemmas about the rule-based insight generator. -/

lemma ctrRule_shape (s : Summary) (ins : Insights) :
    ∃ k i r, ctrRule s ins =
      ⟨ins.key_insights ++ k, ins.trends, ins.issues ++ i, ins.recommendations ++ r⟩ := by
  unfold ctrRule
  cases sLookup s "overall_CTR" with
  | none => exact ⟨[], [], [], by simp⟩
  | some q =>
    by_cases hq : q < 1
    · exact ⟨[], ["Low CTR of " ++ fmt2 q ++ "% indicates poor ad relevance or targeting"],
        ["Improve ad copy and creative to increase engagement"], by simp [hq]⟩
    · exact ⟨["CTR of " ++ fmt2 q ++ "% shows good engagement"], [], [], by simp [hq]⟩

lemma cpcRule_shape (s : Summary) (ins : Insights) :
    ∃ k i r, cpcRule s ins =
      ⟨ins.key_insights ++ k, ins.trends, ins.issues ++ i, ins.recommendations ++ r⟩ ∧
      ∀ x ∈ i, leadsWith "Low CTR".data x.data = false := by
  unfold cpcRule
  cases sLookup s "overall_CPC" with
  | none => exact ⟨[], [], [], by simp, by simp⟩
  | some q =>
    by_cases hq : 2 < q
    · refine ⟨["Average CPC is $" ++ fmt2 q], ["High CPC of $" ++ fmt2 q ++ " may impact profitability"],
        ["Optimize bidding strategy to reduce cost per click"], by simp [hq], ?_⟩
      intro x hx
      simp at hx
      subst hx
      rfl
    · exact ⟨["Average CPC is $" ++ fmt2 q], [], [], by simp [hq], by simp⟩

lemma roasRule_shape (s : Summary) (ins : Insights) :
    ∃ k i r, roasRule s ins =
      ⟨ins.key_insights ++ k, ins.trends, ins.issues ++ i, ins.recommendations ++ r⟩ ∧
      ∀ x ∈ i, leadsWith "Low CTR".data x.data = false := by
  unfold roasRule
  cases sLookup s "overall_ROAS" with
  | none => exact ⟨[], [], [], by simp, by simp⟩
  | some q =>
    by_cases hq : q < 2
    · refine ⟨[], ["ROAS of " ++ fmt2 q ++ " is below target threshold"],
        ["Focus on high-converting audiences and reduce spend on underperforming segments"],
        by simp [hq], ?_⟩
      intro x hx
      simp at hx
      subst hx
      rfl
    · exact ⟨["Strong ROAS of " ++ fmt2 q ++ " indicates profitable campaigns"], [], [],
        by simp [hq], by simp⟩

lemma cvrRule_shape (s : Summary) (ins : Insights) :
    ∃ k i r, cvrRule s ins =
      ⟨ins.key_insights ++ k, ins.trends, ins.issues ++ i, ins.recommendations ++ r⟩ ∧
      ∀ x ∈ i, leadsWith "Low CTR".data x.data = false := by
  unfold cvrRule
  cases sLookup s "overall_Conversion_Rate" with
  | none => exact ⟨[], [], [], by simp, by simp⟩
  | some q =>
    by_cases hq : q < 2
    · refine ⟨[], ["Conversion rate of " ++ fmt2 q ++ "% needs improvement"],
        ["Optimize landing pages and checkout flow"], by simp [hq], ?_⟩
      intro x hx
      simp at hx
      subst hx
      rfl
    · exact ⟨["Conversion rate of " ++ fmt2 q ++ "% is performing well"], [], [],
        by simp [hq], by simp⟩

lemma fbRules_trends (s : Summary) : (fbRules s).trends = [] := by
  unfold fbRules
  obtain ⟨k1, i1, r1, h1⟩ := ctrRule_shape s ⟨[], [], [], []⟩
  obtain ⟨k2, i2, r2, h2, _⟩ := cpcRule_shape s (ctrRule s ⟨[], [], [], []⟩)
  obtain ⟨k3, i3, r3, h3, _⟩ := roasRule_shape s (cpcRule s (ctrRule s ⟨[], [], [], []⟩))
  obtain ⟨k4, i4, r4, h4, _⟩ :=
    cvrRule_shape s (roasRule s (cpcRule s (ctrRule s ⟨[], [], [], []⟩)))
  rw [h4, h3, h2, h1]

/-- Field equations for generate_fallback_insights in terms of the
metric-rule section. -/
lemma gfi_fields (s : Summary) :
    (generate_fallback_insights s).issues = (fbRules s).issues ∧
    (generate_fallback_insights s).recommendations = ((fbRules s).recommendations ++ genericRecs).take 5 ∧
    (generate_fallback_insights s).key_insights =
      (if (fbRules s).key_insights.isEmpty then ["Data analysis completed successfully"]
       else (fbRules s).key_insights) ∧
    (generate_fallback_insights s).trends = ["More data points needed for trend analysis"] := by
  have ht := fbRules_trends s
  unfold generate_fallback_insights
  split_ifs <;>
    simp_all [List.isEmpty_iff]

/-! Lemmas about the heap model. -/

lemma hget_append_lt (h : Heap) (d : DF) (r : ℕ) (hr : r < h.length) :
    hget (h ++ [d]) r = hget h r := by
  induction h generalizing r with
  | nil => simp at hr
  | cons a t ih =>
    cases r with
    | zero => rfl
    | succ j => exact ih j (Nat.lt_of_succ_lt_succ hr)

lemma hget_append_len (h : Heap) (d : DF) : hget (h ++ [d]) h.length = d := by
  induction h with
  | nil => rfl
  | cons a t ih => exact ih

lemma hget_hset_ne (h : Heap) (s : ℕ) (d : DF) (r : ℕ) (hr : r ≠ s) :
    hget (hset h s d) r = hget h r := by
  induction h generalizing r s with
  | nil => rfl
  | cons a t ih =>
    cases s with
    | zero =>
      cases r with
      | zero => exact absurd rfl hr
      | succ j => rfl
    | succ k =>
      cases r with
      | zero => rfl
      | succ j => exact ih k j (fun he => hr (by rw [he]))

lemma hget_hset_self (h : Heap) (s : ℕ) (d : DF) (hs : s < h.length) :
    hget (hset h s d) s = d := by
  induction h generalizing s with
  | nil => simp at hs
  | cons a t ih =>
    cases s with
    | zero => rfl
    | succ k => exact ih k (Nat.lt_of_succ_lt_succ hs)

lemma hset_length (h : Heap) (s : ℕ) (d : DF) : (hset h s d).length = h.length :=
  List.length_set h s d

/-! Claim theorems. -/

/-- C1: the claim states that a dataset with impressions and clicks
columns yields a summary containing overall_CTR (6.25 for the two-row
dataset impressions {100, 300}, clicks {10, 15}).  The code never emits
any overall_ key: the guards of the overall section test the bare
metric names (for example `'impressions' in summary`) against a dict
whose keys are only total_/avg_ names.  At the claimed input the
summary holds exactly the four total/avg entries and no overall_CTR,
although the volume-weighted value from its own totals would be
25 / 400 * 100 = 6.25. -/
theorem C1_overall_ctr_never_emitted :
    sLookup (get_summary_metrics ⟨[("impressions", [Cell.num 100, Cell.num 300]),
      ("clicks", [Cell.num 10, Cell.num 15])]⟩) "overall_CTR" = none ∧
    sLookup (get_summary_metrics ⟨[("impressions", [Cell.num 100, Cell.num 300]),
      ("clicks", [Cell.num 10, Cell.num 15])]⟩) "total_impressions" = some 400 ∧
    sLookup (get_summary_metrics ⟨[("impressions", [Cell.num 100, Cell.num 300]),
      ("clicks", [Cell.num 10, Cell.num 15])]⟩) "total_clicks" = some 25 ∧
    (25 : ℚ) / 400 * 100 = 25 / 4 := by
  refine ⟨?_, ?_, ?_, ?_⟩ <;> with_unfolding_all decide

/-- C3: with a provider whose external call fails on every input, both
external-LLM entry points return exactly the rule-based
generate_fallback_insights result; no failure escapes. -/
theorem C3_llm_failure_falls_back
    (call : Summary → String → Except String String)
    (parseJson : String → Except String Insights)
    (summary : Summary) (dfSample : String)
    (hfail : ∀ s d, ∃ e, call s d = Except.error e) :
    generate_insights_openai call parseJson summary dfSample = generate_fallback_insights summary ∧
    generate_insights_gemini call parseJson summary dfSample = generate_fallback_insights summary := by
  obtain ⟨e, he⟩ := hfail summary dfSample
  constructor <;> simp [generate_insights_openai, generate_insights_gemini, he]

/-- Witness for C3 at a concrete always-failing provider and the empty
summary. -/
theorem C3_llm_failure_falls_back_witness :
    generate_insights_openai (fun _ _ => Except.error "boom") (fun _ => Except.error "bad") [] "" =
      generate_fallback_insights [] ∧
    generate_insights_gemini (fun _ _ => Except.error "boom") (fun _ => Except.error "bad") [] "" =
      generate_fallback_insights [] :=
  C3_llm_failure_falls_back (fun _ _ => Except.error "boom") (fun _ => Except.error "bad") [] ""
    (fun _ _ => ⟨"boom", rfl⟩)

/-- C7: the recommendations of the rule-based insight mapping are the
metric-specific recommendations followed by the four generic ones,
truncated to at most five entries; in particular the length never
exceeds five. -/
theorem C7_recommendations_capped (s : Summary) :
    (generate_fallback_insights s).recommendations =
      ((fbRules s).recommendations ++ genericRecs).take 5 ∧
    (generate_fallback_insights s).recommendations.length ≤ 5 := by
  obtain ⟨-, hrec, -, -⟩ := gfi_fields s
  refine ⟨hrec, ?_⟩
  rw [hrec]
  simp [List.length_take]

/-- C9: the rule-based generator is total: for every summary mapping
(missing keys are simply skipped) it returns an insight mapping whose
key_insights and trends are non-empty, and on the empty summary it
returns the generic fallback texts with the four generic
recommendations. -/
theorem C9_fallback_total (s : Summary) :
    (generate_fallback_insights s).key_insights ≠ [] ∧
    (generate_fallback_insights s).trends ≠ [] ∧
    generate_fallback_insights [] =
      ⟨["Data analysis completed successfully"],
       ["More data points needed for trend analysis"], [], genericRecs⟩ := by
  obtain ⟨-, -, hk, ht⟩ := gfi_fields s
  refine ⟨?_, ?_, ?_⟩
  · rw [hk]
    split_ifs with h
    · simp
    · simpa [List.isEmpty_iff] using h
  · rw [ht]
    simp
  · decide

/-- C8: when the summary carries overall_CTR below 1.0 the rule-based
generator emits the low-CTR issue and the creative-improvement
recommendation; at or above 1.0 (the threshold itself included, since
the comparison is strict) it emits the good-engagement key insight and
no issue citing low CTR. -/
theorem C8_ctr_threshold (s : Summary) (ctr : ℚ)
    (h : sLookup s "overall_CTR" = some ctr) :
    (ctr < 1 →
      ("Low CTR of " ++ fmt2 ctr ++ "% indicates poor ad relevance or targeting") ∈
        (generate_fallback_insights s).issues ∧
      "Improve ad copy and creative to increase engagement" ∈
        (generate_fallback_insights s).recommendations) ∧
    (¬ ctr < 1 →
      ("CTR of " ++ fmt2 ctr ++ "% shows good engagement") ∈
        (generate_fallback_insights s).key_insights ∧
      ∀ x ∈ (generate_fallback_insights s).issues,
        leadsWith "Low CTR".data x.data = false) := by
  obtain ⟨hiss, hrec, hkey, -⟩ := gfi_fields s
  obtain ⟨k2, i2, r2, h2, p2⟩ := cpcRule_shape s (ctrRule s ⟨[], [], [], []⟩)
  obtain ⟨k3, i3, r3, h3, p3⟩ := roasRule_shape s (cpcRule s (ctrRule s ⟨[], [], [], []⟩))
  obtain ⟨k4, i4, r4, h4, p4⟩ :=
    cvrRule_shape s (roasRule s (cpcRule s (ctrRule s ⟨[], [], [], []⟩)))
  have hI : (fbRules s).issues = (ctrRule s ⟨[], [], [], []⟩).issues ++ (i2 ++ i3 ++ i4) := by
    unfold fbRules
    rw [h4, h3, h2]
    simp
  have hR : (fbRules s).recommendations =
      (ctrRule s ⟨[], [], [], []⟩).recommendations ++ (r2 ++ r3 ++ r4) := by
    unfold fbRules
    rw [h4, h3, h2]
    simp
  have hK : (fbRules s).key_insights =
      (ctrRule s ⟨[], [], [], []⟩).key_insights ++ (k2 ++ k3 ++ k4) := by
    unfold fbRules
    rw [h4, h3, h2]
    simp
  constructor
  · intro hlt
    have hctr : ctrRule s ⟨[], [], [], []⟩ =
        ⟨[], [], ["Low CTR of " ++ fmt2 ctr ++ "% indicates poor ad relevance or targeting"],
         ["Improve ad copy and creative to increase engagement"]⟩ := by
      simp [ctrRule, h, hlt]
    constructor
    · rw [hiss, hI, hctr]
      simp
    · rw [hrec, hR, hctr]
      simp
  · intro hge
    have hctr : ctrRule s ⟨[], [], [], []⟩ =
        ⟨["CTR of " ++ fmt2 ctr ++ "% shows good engagement"], [], [], []⟩ := by
      simp [ctrRule, h, hge]
    constructor
    · rw [hkey, hK, hctr]
      simp
    · intro x hx
      rw [hiss, hI, hctr] at hx
      simp at hx
      rcases hx with hx | hx | hx
      · exact p2 x hx
      · exact p3 x hx
      · exact p4 x hx

/-- Witness for C8: a summary with overall_CTR exactly 1.0 resolves to
the good-engagement branch. -/
theorem C8_ctr_threshold_witness :
    ("CTR of " ++ fmt2 1 ++ "% shows good engagement") ∈
      (generate_fallback_insights [("overall_CTR", 1)]).key_insights ∧
    ∀ x ∈ (generate_fallback_insights [("overall_CTR", 1)]).issues,
      leadsWith "Low CTR".data x.data = false :=
  (C8_ctr_threshold [("overall_CTR", 1)] 1 (by decide)).2 (by simp)

/-- C5: for each base metric, the summary carries total_/avg_ entries
with the column sum and mean exactly when the column is present; when
the column is absent the total_, avg_ and dependent overall_ keys are
entirely absent. -/
theorem C5_summary_key_presence (df : DF) (m : String) (hm : m ∈ baseMetrics) :
    (hasCol df m = true ↔
      (sLookup (get_summary_metrics df) ("total_" ++ m) = some (colSum (getColD df m)) ∧
       sLookup (get_summary_metrics df) ("avg_" ++ m) = some (colMean (getColD df m)))) ∧
    (hasCol df m = false →
      sLookup (get_summary_metrics df) ("total_" ++ m) = none ∧
      sLookup (get_summary_metrics df) ("avg_" ++ m) = none ∧
      ∀ k ∈ overallDeps m, sLookup (get_summary_metrics df) k = none) := by
  have ht := base_total df m hm
  have ha := base_avg df m hm
  rw [summary_eq_base]
  constructor
  · constructor
    · intro hcol
      rw [ht, ha, if_pos hcol, if_pos hcol]
      exact ⟨rfl, rfl⟩
    · intro ⟨h1, h2⟩
      cases hc : hasCol df m with
      | true => rfl
      | false =>
        rw [ht, if_neg (by simp [hc])] at h1
        exact absurd h1 (by simp)
  · intro hcol
    refine ⟨?_, ?_, ?_⟩
    · rw [ht, if_neg (by simp [hcol])]
    · rw [ha, if_neg (by simp [hcol])]
    · fin_cases hm <;>
        (intro k hk
         apply base_other_none
         fin_cases hk <;> decide)

/-- Witness for C5: a dataset with only an impressions column has no
total_revenue, avg_revenue or overall_ROAS key at all. -/
theorem C5_summary_key_presence_witness :
    sLookup (get_summary_metrics ⟨[("impressions", [Cell.num 100])]⟩) "total_revenue" = none ∧
    sLookup (get_summary_metrics ⟨[("impressions", [Cell.num 100])]⟩) "avg_revenue" = none ∧
    sLookup (get_summary_metrics ⟨[("impressions", [Cell.num 100])]⟩) "overall_ROAS" = none := by
  obtain ⟨-, h2⟩ :=
    C5_summary_key_presence ⟨[("impressions", [Cell.num 100])]⟩ "revenue" (by decide)
  obtain ⟨a, b, c⟩ := h2 (by decide)
  exact ⟨a, b, c "overall_ROAS" (by decide)⟩

/-- C4: each derived cell of calculate_kpis equals its formula when the
denominator of that row is positive and 0 otherwise (safe division):
CTR = clicks/impressions*100, CPC = spend/clicks,
CPM = spend/impressions*1000, Conversion_Rate = conversions/clicks*100,
ROAS = revenue/spend, each guarded by its denominator. -/
theorem C4_safe_division (df : DF) (i : ℕ) :
    (∀ qn qd, (getColD (kpiRename df) "clicks")[i]? = some (Cell.num qn) →
      (getColD (kpiRename df) "impressions")[i]? = some (Cell.num qd) →
      (getColD (calculate_kpis df) "CTR")[i]? =
        some (Cell.num (if 0 < qd then qn / qd * 100 else 0))) ∧
    (∀ qn qd, (getColD (kpiRename df) "spend")[i]? = some (Cell.num qn) →
      (getColD (kpiRename df) "clicks")[i]? = some (Cell.num qd) →
      (getColD (calculate_kpis df) "CPC")[i]? =
        some (Cell.num (if 0 < qd then qn / qd * 1 else 0))) ∧
    (∀ qn qd, (getColD (kpiRename df) "spend")[i]? = some (Cell.num qn) →
      (getColD (kpiRename df) "impressions")[i]? = some (Cell.num qd) →
      (getColD (calculate_kpis df) "CPM")[i]? =
        some (Cell.num (if 0 < qd then qn / qd * 1000 else 0))) ∧
    (∀ qn qd, (getColD (kpiRename df) "conversions")[i]? = some (Cell.num qn) →
      (getColD (kpiRename df) "clicks")[i]? = some (Cell.num qd) →
      (getColD (calculate_kpis df) "Conversion_Rate")[i]? =
        some (Cell.num (if 0 < qd then qn / qd * 100 else 0))) ∧
    (∀ qn qd, (getColD (kpiRename df) "revenue")[i]? = some (Cell.num qn) →
      (getColD (kpiRename df) "spend")[i]? = some (Cell.num qd) →
      (getColD (calculate_kpis df) "ROAS")[i]? =
        some (Cell.num (if 0 < qd then qn / qd * 1 else 0))) := by
  refine ⟨?_, ?_, ?_, ?_, ?_⟩ <;> intro qn qd hn hd
  · exact kpi_cell_spec df "clicks" "impressions" "CTR" 100 i qn qd (calc_CTR_col df) hn hd
  · exact kpi_cell_spec df "spend" "clicks" "CPC" 1 i qn qd (calc_CPC_col df) hn hd
  · exact kpi_cell_spec df "spend" "impressions" "CPM" 1000 i qn qd (calc_CPM_col df) hn hd
  · exact kpi_cell_spec df "conversions" "clicks" "Conversion_Rate" 100 i qn qd
      (calc_CR_col df) hn hd
  · exact kpi_cell_spec df "revenue" "spend" "ROAS" 1 i qn qd (calc_ROAS_col df) hn hd

set_option maxRecDepth 8000 in
/-- Witness for C4 at the one-row dataset impressions 1000, clicks 20,
spend 50, conversions 2, revenue 150: CTR 2, CPC 2.5, CPM 50,
Conversion_Rate 10, ROAS 3. -/
theorem C4_safe_division_witness :
    (getColD (calculate_kpis ⟨[("impressions", [Cell.num 1000]), ("clicks", [Cell.num 20]),
      ("spend", [Cell.num 50]), ("conversions", [Cell.num 2]),
      ("revenue", [Cell.num 150])]⟩) "CTR")[0]? = some (Cell.num 2) ∧
    (getColD (calculate_kpis ⟨[("impressions", [Cell.num 1000]), ("clicks", [Cell.num 20]),
      ("spend", [Cell.num 50]), ("conversions", [Cell.num 2]),
      ("revenue", [Cell.num 150])]⟩) "CPC")[0]? = some (Cell.num (5 / 2)) ∧
    (getColD (calculate_kpis ⟨[("impressions", [Cell.num 1000]), ("clicks", [Cell.num 20]),
      ("spend", [Cell.num 50]), ("conversions", [Cell.num 2]),
      ("revenue", [Cell.num 150])]⟩) "ROAS")[0]? = some (Cell.num 3) := by
  obtain ⟨h1, h2, -, -, h5⟩ := C4_safe_division ⟨[("impressions", [Cell.num 1000]),
    ("clicks", [Cell.num 20]), ("spend", [Cell.num 50]), ("conversions", [Cell.num 2]),
    ("revenue", [Cell.num 150])]⟩ 0
  refine ⟨(h1 20 1000 ?_ ?_).trans ?_, (h2 50 20 ?_ ?_).trans ?_, (h5 150 50 ?_ ?_).trans ?_⟩ <;>
    with_unfolding_all decide

/-- C6 counterexample: the claim's iff fails as stated.  A dataset
whose only column is already named CTR passes through calculate_kpis
unchanged (its label matches no rename keyword and no KPI is computed),
so the output contains a CTR column although neither source column
(clicks, impressions) is present after renaming. -/
theorem C6_counterexample :
    hasCol (calculate_kpis ⟨[("CTR", [Cell.num 7])]⟩) "CTR" = true ∧
    hasCol (kpiRename ⟨[("CTR", [Cell.num 7])]⟩) "clicks" = false ∧
    hasCol (kpiRename ⟨[("CTR", [Cell.num 7])]⟩) "impressions" = false := by
  refine ⟨?_, ?_, ?_⟩ <;> decide

/-- C6 (amended): provided the input has no column already named after
one of the five derived fields, each derived column is present in the
output of calculate_kpis exactly when both of its source columns are
present after canonical renaming; when a source is missing, the derived
column is absent entirely. -/
theorem C6_derived_presence (df : DF)
    (hnd : ∀ t ∈ ["CTR", "CPC", "CPM", "Conversion_Rate", "ROAS"], hasCol df t = false) :
    hasCol (calculate_kpis df) "CTR" =
      (hasCol (kpiRename df) "clicks" && hasCol (kpiRename df) "impressions") ∧
    hasCol (calculate_kpis df) "CPC" =
      (hasCol (kpiRename df) "spend" && hasCol (kpiRename df) "clicks") ∧
    hasCol (calculate_kpis df) "CPM" =
      (hasCol (kpiRename df) "spend" && hasCol (kpiRename df) "impressions") ∧
    hasCol (calculate_kpis df) "Conversion_Rate" =
      (hasCol (kpiRename df) "conversions" && hasCol (kpiRename df) "clicks") ∧
    hasCol (calculate_kpis df) "ROAS" =
      (hasCol (kpiRename df) "revenue" && hasCol (kpiRename df) "spend") := by
  refine ⟨?_, ?_, ?_, ?_, ?_⟩
  · exact hasCol_calc_of df "CTR" "clicks" "impressions" _ (calc_CTR_col df)
      (hasCol_rename_derived df "CTR" (by decide) (hnd "CTR" (by decide)))
  · exact hasCol_calc_of df "CPC" "spend" "clicks" _ (calc_CPC_col df)
      (hasCol_rename_derived df "CPC" (by decide) (hnd "CPC" (by decide)))
  · exact hasCol_calc_of df "CPM" "spend" "impressions" _ (calc_CPM_col df)
      (hasCol_rename_derived df "CPM" (by decide) (hnd "CPM" (by decide)))
  · exact hasCol_calc_of df "Conversion_Rate" "conversions" "clicks" _ (calc_CR_col df)
      (hasCol_rename_derived df "Conversion_Rate" (by decide) (hnd "Conversion_Rate" (by decide)))
  · exact hasCol_calc_of df "ROAS" "revenue" "spend" _ (calc_ROAS_col df)
      (hasCol_rename_derived df "ROAS" (by decide) (hnd "ROAS" (by decide)))

/-- Witness for C6 (amended) at a dataset with impressions and clicks
only: CTR is created, ROAS is absent. -/
theorem C6_derived_presence_witness :
    hasCol (calculate_kpis ⟨[("impressions", [Cell.num 100]), ("clicks", [Cell.num 10])]⟩) "CTR" =
      (hasCol (kpiRename ⟨[("impressions", [Cell.num 100]), ("clicks", [Cell.num 10])]⟩) "clicks" &&
       hasCol (kpiRename ⟨[("impressions", [Cell.num 100]), ("clicks", [Cell.num 10])]⟩) "impressions") ∧
    hasCol (calculate_kpis ⟨[("impressions", [Cell.num 100]), ("clicks", [Cell.num 10])]⟩) "ROAS" =
      (hasCol (kpiRename ⟨[("impressions", [Cell.num 100]), ("clicks", [Cell.num 10])]⟩) "revenue" &&
       hasCol (kpiRename ⟨[("impressions", [Cell.num 100]), ("clicks", [Cell.num 10])]⟩) "spend") := by
  obtain ⟨h1, -, -, -, h5⟩ :=
    C6_derived_presence ⟨[("impressions", [Cell.num 100]), ("clicks", [Cell.num 10])]⟩ (by decide)
  exact ⟨h1, h5⟩

set_option maxRecDepth 8000 in
/-- C2 counterexample: calculate_kpis is not idempotent.  On a dataset
with clicks and conversions the first application adds a
Conversion_Rate column; the second application's rename matches the
substring "conversion" in that label and relabels it to conversions
(colliding with the existing column), so the second output differs
from the first (in pandas the duplicate label even makes the second
KPI assignment raise). -/
theorem C2_counterexample :
    calculate_kpis (calculate_kpis ⟨[("clicks", [Cell.num 10]), ("conversions", [Cell.num 2])]⟩) ≠
      calculate_kpis ⟨[("clicks", [Cell.num 10]), ("conversions", [Cell.num 2])]⟩ := by
  with_unfolding_all decide

/-- C2 (amended): calculate_kpis is idempotent on datasets whose
renamed column labels are distinct and do not contain both conversions
and clicks — exactly the datasets for which no Conversion_Rate column
is produced, so the second rename pass moves no label. -/
theorem C2_conditional_idempotence (df : DF)
    (hnodup : (colNames (kpiRename df)).Nodup)
    (h : ¬(hasCol (kpiRename df) "conversions" = true ∧
           hasCol (kpiRename df) "clicks" = true)) :
    calculate_kpis (calculate_kpis df) = calculate_kpis df := by
  have h4guard : ¬((hasCol (kpiStep "spend" "impressions" "CPM" 1000
      (kpiStep "spend" "clicks" "CPC" 1 (kpiStep "clicks" "impressions" "CTR" 100
        (kpiRename df)))) "conversions" &&
      hasCol (kpiStep "spend" "impressions" "CPM" 1000
      (kpiStep "spend" "clicks" "CPC" 1 (kpiStep "clicks" "impressions" "CTR" 100
        (kpiRename df)))) "clicks") = true) := by
    rw [hasCol_kpiStep_ne _ _ _ _ _ _ (by decide), hasCol_kpiStep_ne _ _ _ _ _ _ (by decide),
      hasCol_kpiStep_ne _ _ _ _ _ _ (by decide), hasCol_kpiStep_ne _ _ _ _ _ _ (by decide),
      hasCol_kpiStep_ne _ _ _ _ _ _ (by decide), hasCol_kpiStep_ne _ _ _ _ _ _ (by decide)]
    intro hb
    simp only [Bool.and_eq_true] at hb
    exact h hb
  have hfix : ∀ nm ∈ colNames (calculate_kpis df), renameOne nm = nm := by
    intro nm hnm
    have he : calculate_kpis df =
        kpiStep "revenue" "spend" "ROAS" 1 (kpiStep "spend" "impressions" "CPM" 1000
          (kpiStep "spend" "clicks" "CPC" 1 (kpiStep "clicks" "impressions" "CTR" 100
            (kpiRename df)))) := by
      show kpiStep "revenue" "spend" "ROAS" 1 (kpiStep "conversions" "clicks"
        "Conversion_Rate" 100 (kpiStep "spend" "impressions" "CPM" 1000
          (kpiStep "spend" "clicks" "CPC" 1 (kpiStep "clicks" "impressions" "CTR" 100
            (kpiRename df))))) = _
      rw [kpiStep_of_false _ _ _ _ _ h4guard]
    rw [he] at hnm
    rcases mem_colNames_kpiStep _ _ _ _ _ _ hnm with h5m | rfl
    · rcases mem_colNames_kpiStep _ _ _ _ _ _ h5m with h3m | rfl
      · rcases mem_colNames_kpiStep _ _ _ _ _ _ h3m with h2m | rfl
        · rcases mem_colNames_kpiStep _ _ _ _ _ _ h2m with h1m | rfl
          · rw [colNames_kpiRename] at h1m
            obtain ⟨n0, -, hn0⟩ := List.mem_map.mp h1m
            rw [← hn0, renameOne_renameOne]
          · decide
        · decide
      · decide
    · decide
  have hren : kpiRename (calculate_kpis df) = calculate_kpis df :=
    kpiRename_eq_self _ hfix
  have st1 : kpiStep "clicks" "impressions" "CTR" 100 (calculate_kpis df) = calculate_kpis df :=
    kpiStep_second_id df _ _ _ _ (calc_CTR_col df)
      (hasCol_calc_stable df "clicks" (by decide) (by decide) (by decide) (by decide) (by decide))
      (hasCol_calc_stable df "impressions" (by decide) (by decide) (by decide) (by decide) (by decide))
      (getColD_calc_stable df "clicks" (by decide) (by decide) (by decide) (by decide) (by decide))
      (getColD_calc_stable df "impressions" (by decide) (by decide) (by decide) (by decide) (by decide))
  have st2 : kpiStep "spend" "clicks" "CPC" 1 (calculate_kpis df) = calculate_kpis df :=
    kpiStep_second_id df _ _ _ _ (calc_CPC_col df)
      (hasCol_calc_stable df "spend" (by decide) (by decide) (by decide) (by decide) (by decide))
      (hasCol_calc_stable df "clicks" (by decide) (by decide) (by decide) (by decide) (by decide))
      (getColD_calc_stable df "spend" (by decide) (by decide) (by decide) (by decide) (by decide))
      (getColD_calc_stable df "clicks" (by decide) (by decide) (by decide) (by decide) (by decide))
  have st3 : kpiStep "spend" "impressions" "CPM" 1000 (calculate_kpis df) = calculate_kpis df :=
    kpiStep_second_id df _ _ _ _ (calc_CPM_col df)
      (hasCol_calc_stable df "spend" (by decide) (by decide) (by decide) (by decide) (by decide))
      (hasCol_calc_stable df "impressions" (by decide) (by decide) (by decide) (by decide) (by decide))
      (getColD_calc_stable df "spend" (by decide) (by decide) (by decide) (by decide) (by decide))
      (getColD_calc_stable df "impressions" (by decide) (by decide) (by decide) (by decide) (by decide))
  have st4 : kpiStep "conversions" "clicks" "Conversion_Rate" 100 (calculate_kpis df) =
      calculate_kpis df :=
    kpiStep_second_id df _ _ _ _ (calc_CR_col df)
      (hasCol_calc_stable df "conversions" (by decide) (by decide) (by decide) (by decide) (by decide))
      (hasCol_calc_stable df "clicks" (by decide) (by decide) (by decide) (by decide) (by decide))
      (getColD_calc_stable df "conversions" (by decide) (by decide) (by decide) (by decide) (by decide))
      (getColD_calc_stable df "clicks" (by decide) (by decide) (by decide) (by decide) (by decide))
  have st5 : kpiStep "revenue" "spend" "ROAS" 1 (calculate_kpis df) = calculate_kpis df :=
    kpiStep_second_id df _ _ _ _ (calc_ROAS_col df)
      (hasCol_calc_stable df "revenue" (by decide) (by decide) (by decide) (by decide) (by decide))
      (hasCol_calc_stable df "spend" (by decide) (by decide) (by decide) (by decide) (by decide))
      (getColD_calc_stable df "revenue" (by decide) (by decide) (by decide) (by decide) (by decide))
      (getColD_calc_stable df "spend" (by decide) (by decide) (by decide) (by decide) (by decide))
  have hunf : calculate_kpis (calculate_kpis df) =
      kpiStep "revenue" "spend" "ROAS" 1 (kpiStep "conversions" "clicks" "Conversion_Rate" 100
        (kpiStep "spend" "impressions" "CPM" 1000 (kpiStep "spend" "clicks" "CPC" 1
          (kpiStep "clicks" "impressions" "CTR" 100 (kpiRename (calculate_kpis df)))))) := rfl
  rw [hunf, hren, st1, st2, st3, st4, st5]

/-- Witness for C2 (amended) at a dataset with impressions and clicks
only (no conversions column, so no Conversion_Rate is produced). -/
theorem C2_conditional_idempotence_witness :
    calculate_kpis (calculate_kpis ⟨[("impressions", [Cell.num 100]), ("clicks", [Cell.num 10])]⟩) =
      calculate_kpis ⟨[("impressions", [Cell.num 100]), ("clicks", [Cell.num 10])]⟩ :=
  C2_conditional_idempotence ⟨[("impressions", [Cell.num 100]), ("clicks", [Cell.num 10])]⟩
    (by decide) (by decide)

/-- C10: clean_data and calculate_kpis never mutate their argument.
In the heap model both bodies allocate a copy (df.copy(), and a fresh
frame from rename) and every in-place assignment targets the fresh
object, so for any valid reference the argument's value is unchanged
after the call, while the returned reference holds the pure result. -/
theorem C10_no_mutation (h : Heap) (r : ℕ) (hr : r < h.length) :
    (hget (clean_data_prog h r).1 r = hget h r ∧
     hget (clean_data_prog h r).1 (clean_data_prog h r).2 = clean_data (hget h r)) ∧
    (hget (calculate_kpis_prog h r).1 r = hget h r ∧
     hget (calculate_kpis_prog h r).1 (calculate_kpis_prog h r).2 =
       calculate_kpis (hget h r)) := by
  have hrL : r ≠ h.length := Nat.ne_of_lt hr
  refine ⟨⟨?_, ?_⟩, ⟨?_, ?_⟩⟩
  · simp only [clean_data_prog]
    rw [hget_hset_ne _ _ _ _ hrL, hget_hset_ne _ _ _ _ hrL, hget_hset_ne _ _ _ _ hrL,
      hget_hset_ne _ _ _ _ hrL, hget_append_lt _ _ _ hr]
  · simp only [clean_data_prog]
    rw [hget_append_len h _]
    rw [hget_hset_self _ _ _ (by simp [hset_length])]
    rw [hget_hset_self _ _ _ (by simp [hset_length])]
    rw [hget_hset_self _ _ _ (by simp [hset_length])]
    rw [hget_hset_self _ _ _ (by simp [hset_length])]
    rfl
  · simp only [calculate_kpis_prog]
    have hrL2 : r ≠ (h ++ [hget h r]).length := by
      rw [List.length_append]
      omega
    rw [hget_hset_ne _ _ _ _ hrL2, hget_hset_ne _ _ _ _ hrL2, hget_hset_ne _ _ _ _ hrL2,
      hget_hset_ne _ _ _ _ hrL2, hget_hset_ne _ _ _ _ hrL2,
      hget_append_lt _ _ _ (by rw [List.length_append]; omega),
      hget_append_lt _ _ _ hr]
  · simp only [calculate_kpis_prog]
    rw [hget_append_len h _]
    rw [hget_append_len (h ++ [hget h r]) _]
    rw [hget_hset_self _ _ _ (by simp [hset_length])]
    rw [hget_hset_self _ _ _ (by simp [hset_length])]
    rw [hget_hset_self _ _ _ (by simp [hset_length])]
    rw [hget_hset_self _ _ _ (by simp [hset_length])]
    rw [hget_hset_self _ _ _ (by simp [hset_length])]
    rfl

/-- Witness for C10 at a one-frame heap. -/
theorem C10_no_mutation_witness :
    hget (clean_data_prog [⟨[("clicks", [Cell.num 10])]⟩] 0).1 0 =
      hget [⟨[("clicks", [Cell.num 10])]⟩] 0 ∧
    hget (calculate_kpis_prog [⟨[("clicks", [Cell.num 10])]⟩] 0).1 0 =
      hget [⟨[("clicks", [Cell.num 10])]⟩] 0 := by
  obtain ⟨⟨a, -⟩, ⟨b, -⟩⟩ := C10_no_mutation [⟨[("clicks", [Cell.num 10])]⟩] 0 (by decide)
  exact ⟨a, b⟩
